import Mathlib

/-!
Shallow embedding of the OpenTitan entropy-complex driver
(sw/device/lib/crypto/drivers/entropy.c) and proofs about it.

The driver is embedded as a trace semantics over memory-mapped I/O: every
abs_mmio_read32, abs_mmio_write32 and busy-poll loop is recorded as an event,
and the hardware is modelled as an oracle assigning a value to each read the
driver issues.  Register addresses, field layouts and reset values come from
the generated register headers (csrng_regs.h, edn_regs.h, entropy_src_regs.h,
top_earlgrey.h), which the driver treats as a fixed external contract.
-/

/-- A hardware interaction event: one MMIO read, one MMIO write, or one
busy-poll loop that repeatedly reads a register until the given bit is set
(the whole loop is recorded as a single event). -/
inductive Ev where
  | rd (addr : Nat)
  | wr (addr : Nat) (val : Nat)
  | poll (addr : Nat) (bit : Nat)
deriving DecidableEq

/-- The hardware environment (oracle): readVal n is the 32-bit value returned
by the n-th read the driver issues; for a poll loop it is the final read, the
one that exits the loop. -/
structure HwEnv where
  readVal : Nat → Nat

/-- Result of a driver computation: the status (error models the C INTERNAL()
failure status), the trace of hardware interactions, and the read counter
after the call. -/
structure DrvResult (α : Type) where
  res : Except Unit α
  trace : List Ev
  next : Nat

/-- A driver computation, parameterized by the hardware oracle and the read
counter. -/
def Drv (α : Type) : Type := HwEnv → Nat → DrvResult α

/-- Return a value, no hardware interaction (C OK_STATUS). -/
def dpure {α : Type} (a : α) : Drv α := fun _ n => ⟨.ok a, [], n⟩

/-- Fail with the opaque internal error (C INTERNAL()). -/
def dfail {α : Type} : Drv α := fun _ n => ⟨.error (), [], n⟩

/-- Sequencing with fail-fast error propagation (the C TRY macro / early
return): on error the continuation contributes no events. -/
def dbind {α β : Type} (x : Drv α) (f : α → Drv β) : Drv β := fun env n =>
  match x env n with
  | ⟨.error e, t, m⟩ => ⟨.error e, t, m⟩
  | ⟨.ok a, t, m⟩ =>
    let r := f a env m
    ⟨r.res, t ++ r.trace, r.next⟩

/-- Sequencing that discards the first result. -/
def dseq {α β : Type} (x : Drv α) (y : Drv β) : Drv β := dbind x fun _ => y

/-- abs_mmio_read32: one uncached MMIO read. -/
def abs_mmio_read32 (addr : Nat) : Drv Nat :=
  fun env n => ⟨.ok (env.readVal n), [.rd addr], n + 1⟩

/-- abs_mmio_write32: one uncached MMIO write. -/
def abs_mmio_write32 (addr v : Nat) : Drv Unit :=
  fun _ n => ⟨.ok (), [.wr addr v], n⟩

/-- A do-while busy-poll loop reading addr until the given bit is set,
recorded as one event; returns the register value read by the final
iteration (the one whose bit was set). -/
def pollBitSet (addr bit : Nat) : Drv Nat :=
  fun env n => ⟨.ok (env.readVal n), [.poll addr bit], n + 1⟩

/-- All-ones 32-bit mask; C unsigned arithmetic is 32 bits wide here. -/
def mask32 : Nat := 2 ^ 32 - 1

/-- bitfield_field32_t from sw/device/lib/base/bitfield.h: a field is a mask
and a bit index within a 32-bit register. -/
structure bitfield_field32_t where
  mask : Nat
  index : Nat

/-- bitfield_field32_write: (reg & ~(mask << index)) | ((value & mask) << index). -/
def bitfield_field32_write (reg : Nat) (f : bitfield_field32_t) (v : Nat) : Nat :=
  (reg &&& (mask32 ^^^ (f.mask <<< f.index))) ||| ((v &&& f.mask) <<< f.index)

/-- bitfield_field32_read: (reg & (mask << index)) >> index. -/
def bitfield_field32_read (reg : Nat) (f : bitfield_field32_t) : Nat :=
  (reg &&& (f.mask <<< f.index)) >>> f.index

/-- bitfield_bit32_read: extract one bit as a boolean. -/
def bitfield_bit32_read (reg : Nat) (b : Nat) : Bool :=
  bitfield_field32_read reg ⟨1, b⟩ == 1

/-- bitfield_bit32_write: set one bit from a boolean. -/
def bitfield_bit32_write (reg : Nat) (b : Nat) (v : Bool) : Nat :=
  bitfield_field32_write reg ⟨1, b⟩ (if v then 1 else 0)

/-- misalignment32_of from sw/device/lib/base/memory.h: the misalignment of an
address with respect to the 4-byte alignment of uint32_t. -/
def misalignment32_of (addr : Nat) : Nat := addr % 4

/-- launder32 from hardened.h: an optimizer barrier, value-identity. -/
def launder32 (x : Nat) : Nat := x

/-- kMultiBitBool4True from multibits.h. -/
def kMultiBitBool4True : Nat := 0x6

/-- kMultiBitBool4False from multibits.h. -/
def kMultiBitBool4False : Nat := 0x9

/-- kHardenedBoolTrue from hardened.h. -/
def kHardenedBoolTrue : Nat := 0x739

/-- kHardenedBoolFalse from hardened.h. -/
def kHardenedBoolFalse : Nat := 0x1d4

/-- TOP_EARLGREY_CSRNG_BASE_ADDR. -/
def kBaseCsrng : Nat := 0x41150000

/-- TOP_EARLGREY_ENTROPY_SRC_BASE_ADDR. -/
def kBaseEntropySrc : Nat := 0x41160000

/-- TOP_EARLGREY_EDN0_BASE_ADDR. -/
def kBaseEdn0 : Nat := 0x41170000

/-- TOP_EARLGREY_EDN1_BASE_ADDR. -/
def kBaseEdn1 : Nat := 0x41180000

/-- CSRNG genbits buffer size in uint32_t words (entropy.c). -/
def kEntropyCsrngBitsBufferNumWords : Nat := 4

/-- CSRNG register offsets and bits, from the generated csrng_regs.h. -/
def CSRNG_INTR_STATE_REG_OFFSET : Nat := 0x0

/-- csrng_regs.h: control register offset. -/
def CSRNG_CTRL_REG_OFFSET : Nat := 0x14

/-- csrng_regs.h: software command request register offset. -/
def CSRNG_CMD_REQ_REG_OFFSET : Nat := 0x18

/-- csrng_regs.h: software command status register offset. -/
def CSRNG_SW_CMD_STS_REG_OFFSET : Nat := 0x1c

/-- csrng_regs.h: genbits-valid register offset. -/
def CSRNG_GENBITS_VLD_REG_OFFSET : Nat := 0x20

/-- csrng_regs.h: genbits data register offset. -/
def CSRNG_GENBITS_REG_OFFSET : Nat := 0x24

/-- csrng_regs.h: command-ready bit of SW_CMD_STS. -/
def CSRNG_SW_CMD_STS_CMD_RDY_BIT : Nat := 0

/-- csrng_regs.h: command-status (error) bit of SW_CMD_STS. -/
def CSRNG_SW_CMD_STS_CMD_STS_BIT : Nat := 1

/-- csrng_regs.h: command-request-done bit of INTR_STATE. -/
def CSRNG_INTR_STATE_CS_CMD_REQ_DONE_BIT : Nat := 0

/-- csrng_regs.h: genbits-valid bit of GENBITS_VLD. -/
def CSRNG_GENBITS_VLD_GENBITS_VLD_BIT : Nat := 0

/-- csrng_regs.h: CTRL.ENABLE field. -/
def CSRNG_CTRL_ENABLE_FIELD : bitfield_field32_t := ⟨0xf, 0⟩

/-- csrng_regs.h: CTRL.SW_APP_ENABLE field. -/
def CSRNG_CTRL_SW_APP_ENABLE_FIELD : bitfield_field32_t := ⟨0xf, 4⟩

/-- csrng_regs.h: CTRL.READ_INT_STATE field. -/
def CSRNG_CTRL_READ_INT_STATE_FIELD : bitfield_field32_t := ⟨0xf, 8⟩

/-- csrng_regs.h: CTRL power-on-reset value (all three fields multi-bit false). -/
def CSRNG_CTRL_REG_RESVAL : Nat := 0x999

/-- EDN register offsets, fields and reset values, from the generated edn_regs.h. -/
def EDN_CTRL_REG_OFFSET : Nat := 0x14

/-- edn_regs.h: software command request register offset. -/
def EDN_SW_CMD_REQ_REG_OFFSET : Nat := 0x20

/-- edn_regs.h: software command status register offset. -/
def EDN_SW_CMD_STS_REG_OFFSET : Nat := 0x24

/-- edn_regs.h: reseed command template register offset. -/
def EDN_RESEED_CMD_REG_OFFSET : Nat := 0x28

/-- edn_regs.h: generate command template register offset. -/
def EDN_GENERATE_CMD_REG_OFFSET : Nat := 0x2c

/-- edn_regs.h: reseed interval register offset. -/
def EDN_MAX_NUM_REQS_BETWEEN_RESEEDS_REG_OFFSET : Nat := 0x30

/-- edn_regs.h: CTRL.EDN_ENABLE field. -/
def EDN_CTRL_EDN_ENABLE_FIELD : bitfield_field32_t := ⟨0xf, 0⟩

/-- edn_regs.h: CTRL.AUTO_REQ_MODE field. -/
def EDN_CTRL_AUTO_REQ_MODE_FIELD : bitfield_field32_t := ⟨0xf, 8⟩

/-- edn_regs.h: CTRL.CMD_FIFO_RST field. -/
def EDN_CTRL_CMD_FIFO_RST_FIELD : bitfield_field32_t := ⟨0xf, 12⟩

/-- edn_regs.h: CTRL power-on-reset value (all four fields multi-bit false). -/
def EDN_CTRL_REG_RESVAL : Nat := 0x9999

/-- edn_regs.h: command-ready bit of SW_CMD_STS. -/
def EDN_SW_CMD_STS_CMD_RDY_BIT : Nat := 0

/-- edn_regs.h: command-status (error) bit of SW_CMD_STS. -/
def EDN_SW_CMD_STS_CMD_STS_BIT : Nat := 1

/-- ENTROPY_SRC register offsets, fields and reset values, from the generated
entropy_src_regs.h. -/
def ENTROPY_SRC_MODULE_ENABLE_REG_OFFSET : Nat := 0x20

/-- entropy_src_regs.h: CONF register offset. -/
def ENTROPY_SRC_CONF_REG_OFFSET : Nat := 0x24

/-- entropy_src_regs.h: ENTROPY_CONTROL register offset. -/
def ENTROPY_SRC_ENTROPY_CONTROL_REG_OFFSET : Nat := 0x28

/-- entropy_src_regs.h: HEALTH_TEST_WINDOWS register offset. -/
def ENTROPY_SRC_HEALTH_TEST_WINDOWS_REG_OFFSET : Nat := 0x30

/-- entropy_src_regs.h: ALERT_THRESHOLD register offset. -/
def ENTROPY_SRC_ALERT_THRESHOLD_REG_OFFSET : Nat := 0x68

/-- entropy_src_regs.h: MODULE_ENABLE power-on-reset value (multi-bit false). -/
def ENTROPY_SRC_MODULE_ENABLE_REG_RESVAL : Nat := 0x9

/-- entropy_src_regs.h: ENTROPY_CONTROL power-on-reset value. -/
def ENTROPY_SRC_ENTROPY_CONTROL_REG_RESVAL : Nat := 0x99

/-- entropy_src_regs.h: CONF power-on-reset value. -/
def ENTROPY_SRC_CONF_REG_RESVAL : Nat := 0x909099

/-- entropy_src_regs.h: HEALTH_TEST_WINDOWS power-on-reset value. -/
def ENTROPY_SRC_HEALTH_TEST_WINDOWS_REG_RESVAL : Nat := 0x600200

/-- entropy_src_regs.h: ALERT_THRESHOLD power-on-reset value. -/
def ENTROPY_SRC_ALERT_THRESHOLD_REG_RESVAL : Nat := 0xfffd0002

/-- entropy_src_regs.h: ENTROPY_CONTROL.ES_ROUTE field. -/
def ENTROPY_SRC_ENTROPY_CONTROL_ES_ROUTE_FIELD : bitfield_field32_t := ⟨0xf, 0⟩

/-- entropy_src_regs.h: ENTROPY_CONTROL.ES_TYPE field. -/
def ENTROPY_SRC_ENTROPY_CONTROL_ES_TYPE_FIELD : bitfield_field32_t := ⟨0xf, 4⟩

/-- entropy_src_regs.h: CONF.FIPS_ENABLE field. -/
def ENTROPY_SRC_CONF_FIPS_ENABLE_FIELD : bitfield_field32_t := ⟨0xf, 0⟩

/-- entropy_src_regs.h: CONF.ENTROPY_DATA_REG_ENABLE field. -/
def ENTROPY_SRC_CONF_ENTROPY_DATA_REG_ENABLE_FIELD : bitfield_field32_t := ⟨0xf, 4⟩

/-- entropy_src_regs.h: CONF.THRESHOLD_SCOPE field. -/
def ENTROPY_SRC_CONF_THRESHOLD_SCOPE_FIELD : bitfield_field32_t := ⟨0xf, 12⟩

/-- entropy_src_regs.h: CONF.RNG_BIT_ENABLE field. -/
def ENTROPY_SRC_CONF_RNG_BIT_ENABLE_FIELD : bitfield_field32_t := ⟨0xf, 20⟩

/-- entropy_src_regs.h: CONF.RNG_BIT_SEL field. -/
def ENTROPY_SRC_CONF_RNG_BIT_SEL_FIELD : bitfield_field32_t := ⟨0x3, 24⟩

/-- entropy_src_regs.h: HEALTH_TEST_WINDOWS.FIPS_WINDOW field. -/
def ENTROPY_SRC_HEALTH_TEST_WINDOWS_FIPS_WINDOW_FIELD : bitfield_field32_t := ⟨0xffff, 0⟩

/-- entropy_src_regs.h: ALERT_THRESHOLD.ALERT_THRESHOLD field. -/
def ENTROPY_SRC_ALERT_THRESHOLD_ALERT_THRESHOLD_FIELD : bitfield_field32_t := ⟨0xffff, 0⟩

/-- entropy_src_regs.h: ALERT_THRESHOLD.ALERT_THRESHOLD_INV field. -/
def ENTROPY_SRC_ALERT_THRESHOLD_ALERT_THRESHOLD_INV_FIELD : bitfield_field32_t := ⟨0xffff, 16⟩

/-- Application command header fields, mapped by hand in entropy.c
(kAppCmdFieldFlag0 and friends). -/
def kAppCmdFieldFlag0 : bitfield_field32_t := ⟨0xf, 8⟩

/-- entropy.c kAppCmdFieldCmdId: bits 3:0. -/
def kAppCmdFieldCmdId : bitfield_field32_t := ⟨0xf, 0⟩

/-- entropy.c kAppCmdFieldCmdLen: bits 7:4. -/
def kAppCmdFieldCmdLen : bitfield_field32_t := ⟨0xf, 4⟩

/-- entropy.c kAppCmdFieldGlen: bits 30:12. -/
def kAppCmdFieldGlen : bitfield_field32_t := ⟨0x7ffff, 12⟩

/-- CSRNG application command opcodes (entropy_csrng_op_t). -/
def kEntropyDrbgOpInstantiate : Nat := 1

/-- entropy_csrng_op_t: Reseed. -/
def kEntropyDrbgOpReseed : Nat := 2

/-- entropy_csrng_op_t: Generate. -/
def kEntropyDrbgOpGenerate : Nat := 3

/-- entropy_csrng_op_t: Update. -/
def kEntropyDrbgOpUpdate : Nat := 4

/-- entropy_csrng_op_t: Uninstantiate (spelled Unisntantiate in the source). -/
def kEntropyDrbgOpUnisntantiate : Nat := 5

/-- entropy_seed_material_t: word count, buffer contents, and the address of
the data buffer (the address is what the 4-byte-alignment check inspects);
reconstructed from its uses in entropy.c. -/
structure entropy_seed_material_t where
  len : Nat
  data : List Nat
  dataAddr : Nat

/-- entropy_csrng_cmd_t from entropy.c.  disable_trng_input models the
hardened_bool_t field as its uint32 value; a C compound literal that omits
the field zero-initializes it to 0. -/
structure entropy_csrng_cmd_t where
  id : Nat
  disable_trng_input : Nat
  seed_material : Option entropy_seed_material_t
  generate_len : Nat

/-- edn_config_t from entropy.c. -/
structure edn_config_t where
  base_address : Nat
  reseed_interval : Nat
  instantiate : entropy_csrng_cmd_t
  generate : entropy_csrng_cmd_t
  reseed : entropy_csrng_cmd_t

/-- entropy_complex_config_t from entropy.c.  The uint16_t fields
fips_test_window_size and alert_threshold are modelled as Nat values below
2 to the 16; id models entropy_complex_config_id_t. -/
structure entropy_complex_config_t where
  id : Nat
  fips_enable : Nat
  route_to_firmware : Nat
  bypass_conditioner : Nat
  single_bit_mode : Nat
  fips_test_window_size : Nat
  alert_threshold : Nat
  edn0 : edn_config_t
  edn1 : edn_config_t

/-- entropy_complex_config_id_t: kEntropyComplexConfigIdContinuous, the first
enumerator, has value 0. -/
def kEntropyComplexConfigIdContinuous : Nat := 0

/-- The single entry of kEntropyComplexConfigs (the continuous profile).  The
C designated initializer omits .id, so id is zero-initialized (which equals
kEntropyComplexConfigIdContinuous); likewise .disable_trng_input of
edn1.generate is omitted and therefore 0. -/
def kEntropyComplexConfigContinuous : entropy_complex_config_t :=
  { id := 0
    fips_enable := kMultiBitBool4True
    route_to_firmware := kMultiBitBool4False
    bypass_conditioner := kMultiBitBool4False
    single_bit_mode := kMultiBitBool4False
    fips_test_window_size := 0x200
    alert_threshold := 2
    edn0 :=
      { base_address := kBaseEdn0
        reseed_interval := 32
        instantiate :=
          { id := kEntropyDrbgOpInstantiate
            disable_trng_input := kHardenedBoolFalse
            seed_material := none
            generate_len := 0 }
        generate :=
          { id := kEntropyDrbgOpGenerate
            disable_trng_input := kHardenedBoolFalse
            seed_material := none
            generate_len := 8 }
        reseed :=
          { id := kEntropyDrbgOpReseed
            disable_trng_input := kHardenedBoolFalse
            seed_material := none
            generate_len := 0 } }
    edn1 :=
      { base_address := kBaseEdn1
        reseed_interval := 4
        instantiate :=
          { id := kEntropyDrbgOpInstantiate
            disable_trng_input := kHardenedBoolFalse
            seed_material := none
            generate_len := 0 }
        generate :=
          { id := kEntropyDrbgOpGenerate
            disable_trng_input := 0
            seed_material := none
            generate_len := 1 }
        reseed :=
          { id := kEntropyDrbgOpReseed
            disable_trng_input := kHardenedBoolFalse
            seed_material := none
            generate_len := 0 } } }

/-- The C expression cmd.seed_material == NULL ? 0 : cmd.seed_material->len. -/
def cmdLenOf : Option entropy_seed_material_t → Nat
  | none => 0
  | some s => s.len

/-- The seed words the command loop writes: data[0], ..., data[len-1]. -/
def seedWordsOf : Option entropy_seed_material_t → List Nat
  | none => []
  | some s => (List.range s.len).map (fun i => s.data.getD i 0)

/-- The C check cmd.seed_material != NULL and misalignment32_of(data) != 0. -/
def seedMisaligned : Option entropy_seed_material_t → Bool
  | none => false
  | some s => misalignment32_of s.dataAddr != 0

/-- The application command header built by csrng_send_app_cmd (entropy.c
lines 262 to 268): id, length and generate-length fields are always written;
flag0 is written with kMultiBitBool4True only when disable_trng_input
compares equal to kHardenedBoolTrue, and is otherwise left at raw 0. -/
def appCmdHeader (cmd : entropy_csrng_cmd_t) : Nat :=
  if launder32 cmd.disable_trng_input = kHardenedBoolTrue then
    bitfield_field32_write
      (bitfield_field32_write
        (bitfield_field32_write
          (bitfield_field32_write 0 kAppCmdFieldCmdId cmd.id)
          kAppCmdFieldCmdLen (cmdLenOf cmd.seed_material))
        kAppCmdFieldGlen cmd.generate_len)
      kAppCmdFieldFlag0 kMultiBitBool4True
  else
    bitfield_field32_write
      (bitfield_field32_write
        (bitfield_field32_write 0 kAppCmdFieldCmdId cmd.id)
        kAppCmdFieldCmdLen (cmdLenOf cmd.seed_material))
      kAppCmdFieldGlen cmd.generate_len

/-- Write a list of words to one register address, in order. -/
def writeWords (addr : Nat) : List Nat → Drv Unit
  | [] => dpure ()
  | w :: ws => dseq (abs_mmio_write32 addr w) (writeWords addr ws)

/-- csrng_send_app_cmd: poll for command-ready, validate the seed-material
length and alignment, clear the completion flag, write the header and the
seed words, poll for completion, and fail if the hardware status bit is set. -/
def csrng_send_app_cmd (reg_address : Nat) (cmd : entropy_csrng_cmd_t) : Drv Unit :=
  dseq (pollBitSet (kBaseCsrng + CSRNG_SW_CMD_STS_REG_OFFSET) CSRNG_SW_CMD_STS_CMD_RDY_BIT)
  (if cmdLenOf cmd.seed_material &&& (mask32 ^^^ kAppCmdFieldCmdLen.mask) ≠ 0 then dfail
   else if seedMisaligned cmd.seed_material then dfail
   else
     dseq (abs_mmio_write32 (kBaseCsrng + CSRNG_INTR_STATE_REG_OFFSET)
             (bitfield_bit32_write 0 CSRNG_INTR_STATE_CS_CMD_REQ_DONE_BIT true))
     (dseq (abs_mmio_write32 reg_address (appCmdHeader cmd))
     (dseq (writeWords reg_address (seedWordsOf cmd.seed_material))
     (dseq (pollBitSet (kBaseCsrng + CSRNG_INTR_STATE_REG_OFFSET) CSRNG_INTR_STATE_CS_CMD_REQ_DONE_BIT)
     (dbind (abs_mmio_read32 (kBaseCsrng + CSRNG_SW_CMD_STS_REG_OFFSET)) (fun reg =>
        if bitfield_bit32_read reg CSRNG_SW_CMD_STS_CMD_STS_BIT then dfail else dpure ()))))))

/-- csrng_configure: enable the CSRNG block with software application and
internal-state access; a single register write, no failure path. -/
def csrng_configure : Drv Unit :=
  abs_mmio_write32 (kBaseCsrng + CSRNG_CTRL_REG_OFFSET)
    (bitfield_field32_write
      (bitfield_field32_write
        (bitfield_field32_write 0 CSRNG_CTRL_ENABLE_FIELD kMultiBitBool4True)
        CSRNG_CTRL_SW_APP_ENABLE_FIELD kMultiBitBool4True)
      CSRNG_CTRL_READ_INT_STATE_FIELD kMultiBitBool4True)

/-- edn_stop: read CTRL, assert the command-FIFO-reset field while still
enabled, then write the CTRL power-on-reset value. -/
def edn_stop (edn_address : Nat) : Drv Unit :=
  dbind (abs_mmio_read32 (edn_address + EDN_CTRL_REG_OFFSET)) (fun reg =>
  dseq (abs_mmio_write32 (edn_address + EDN_CTRL_REG_OFFSET)
          (bitfield_field32_write reg EDN_CTRL_CMD_FIFO_RST_FIELD kMultiBitBool4True))
       (abs_mmio_write32 (edn_address + EDN_CTRL_REG_OFFSET) EDN_CTRL_REG_RESVAL))

/-- edn_ready_block: poll SW_CMD_STS until the ready bit is set, then fail if
the status bit of that same register value is set. -/
def edn_ready_block (edn_address : Nat) : Drv Unit :=
  dbind (pollBitSet (edn_address + EDN_SW_CMD_STS_REG_OFFSET) EDN_SW_CMD_STS_CMD_RDY_BIT) (fun reg =>
    if bitfield_bit32_read reg EDN_SW_CMD_STS_CMD_STS_BIT then dfail else dpure ())

/-- edn_configure: submit the reseed and generate templates, program the
reseed interval, enable the instance in auto-request mode, block on the
handshake, submit the instantiate template, block on the handshake again. -/
def edn_configure (config : edn_config_t) : Drv Unit :=
  dseq (csrng_send_app_cmd (config.base_address + EDN_RESEED_CMD_REG_OFFSET) config.reseed)
  (dseq (csrng_send_app_cmd (config.base_address + EDN_GENERATE_CMD_REG_OFFSET) config.generate)
  (dseq (abs_mmio_write32 (config.base_address + EDN_MAX_NUM_REQS_BETWEEN_RESEEDS_REG_OFFSET)
           config.reseed_interval)
  (dseq (abs_mmio_write32 (config.base_address + EDN_CTRL_REG_OFFSET)
           (bitfield_field32_write
             (bitfield_field32_write 0 EDN_CTRL_EDN_ENABLE_FIELD kMultiBitBool4True)
             EDN_CTRL_AUTO_REQ_MODE_FIELD kMultiBitBool4True))
  (dseq (edn_ready_block config.base_address)
  (dseq (csrng_send_app_cmd (config.base_address + EDN_SW_CMD_REQ_REG_OFFSET) config.instantiate)
        (edn_ready_block config.base_address))))))

/-- entropy_src_stop: write the power-on-reset value to MODULE_ENABLE and
then to the ENTROPY_CONTROL, CONF, HEALTH_TEST_WINDOWS and ALERT_THRESHOLD
registers; five writes in total. -/
def entropy_src_stop : Drv Unit :=
  dseq (abs_mmio_write32 (kBaseEntropySrc + ENTROPY_SRC_MODULE_ENABLE_REG_OFFSET)
          ENTROPY_SRC_MODULE_ENABLE_REG_RESVAL)
  (dseq (abs_mmio_write32 (kBaseEntropySrc + ENTROPY_SRC_ENTROPY_CONTROL_REG_OFFSET)
          ENTROPY_SRC_ENTROPY_CONTROL_REG_RESVAL)
  (dseq (abs_mmio_write32 (kBaseEntropySrc + ENTROPY_SRC_CONF_REG_OFFSET)
          ENTROPY_SRC_CONF_REG_RESVAL)
  (dseq (abs_mmio_write32 (kBaseEntropySrc + ENTROPY_SRC_HEALTH_TEST_WINDOWS_REG_OFFSET)
          ENTROPY_SRC_HEALTH_TEST_WINDOWS_REG_RESVAL)
        (abs_mmio_write32 (kBaseEntropySrc + ENTROPY_SRC_ALERT_THRESHOLD_REG_OFFSET)
          ENTROPY_SRC_ALERT_THRESHOLD_REG_RESVAL))))

/-- entropy_complex_stop_all: disable EDN0, then EDN1, then reset the CSRNG
control register, then stop the entropy source. -/
def entropy_complex_stop_all : Drv Unit :=
  dseq (edn_stop kBaseEdn0)
  (dseq (edn_stop kBaseEdn1)
  (dseq (abs_mmio_write32 (kBaseCsrng + CSRNG_CTRL_REG_OFFSET) CSRNG_CTRL_REG_RESVAL)
        entropy_src_stop))

/-- The 32-bit complement applied to the uint16_t alert threshold by the C
expression with tilde: integer promotion followed by conversion to uint32. -/
def complement32 (x : Nat) : Nat := mask32 ^^^ (x &&& mask32)

/-- entropy_src_configure: program routing and conditioner-bypass, the CONF
register, the health-test window, the alert threshold with its inverted
copy, and finally module-enable; five writes, no failure path. -/
def entropy_src_configure (config : entropy_complex_config_t) : Drv Unit :=
  dseq (abs_mmio_write32 (kBaseEntropySrc + ENTROPY_SRC_ENTROPY_CONTROL_REG_OFFSET)
          (bitfield_field32_write
            (bitfield_field32_write 0 ENTROPY_SRC_ENTROPY_CONTROL_ES_ROUTE_FIELD
              config.route_to_firmware)
            ENTROPY_SRC_ENTROPY_CONTROL_ES_TYPE_FIELD config.bypass_conditioner))
  (dseq (abs_mmio_write32 (kBaseEntropySrc + ENTROPY_SRC_CONF_REG_OFFSET)
          (bitfield_field32_write
            (bitfield_field32_write
              (bitfield_field32_write
                (bitfield_field32_write
                  (bitfield_field32_write 0 ENTROPY_SRC_CONF_FIPS_ENABLE_FIELD
                    config.fips_enable)
                  ENTROPY_SRC_CONF_ENTROPY_DATA_REG_ENABLE_FIELD config.route_to_firmware)
                ENTROPY_SRC_CONF_THRESHOLD_SCOPE_FIELD kMultiBitBool4False)
              ENTROPY_SRC_CONF_RNG_BIT_ENABLE_FIELD config.single_bit_mode)
            ENTROPY_SRC_CONF_RNG_BIT_SEL_FIELD 0))
  (dseq (abs_mmio_write32 (kBaseEntropySrc + ENTROPY_SRC_HEALTH_TEST_WINDOWS_REG_OFFSET)
          (bitfield_field32_write ENTROPY_SRC_HEALTH_TEST_WINDOWS_REG_RESVAL
            ENTROPY_SRC_HEALTH_TEST_WINDOWS_FIPS_WINDOW_FIELD config.fips_test_window_size))
  (dseq (abs_mmio_write32 (kBaseEntropySrc + ENTROPY_SRC_ALERT_THRESHOLD_REG_OFFSET)
          (bitfield_field32_write
            (bitfield_field32_write 0 ENTROPY_SRC_ALERT_THRESHOLD_ALERT_THRESHOLD_FIELD
              config.alert_threshold)
            ENTROPY_SRC_ALERT_THRESHOLD_ALERT_THRESHOLD_INV_FIELD
            (complement32 config.alert_threshold)))
        (abs_mmio_write32 (kBaseEntropySrc + ENTROPY_SRC_MODULE_ENABLE_REG_OFFSET)
          kMultiBitBool4True))))

/-- entropy_complex_init factored over the configuration record it retrieves:
stop everything, check the self-identifier of the retrieved record, then
configure entropy source, CSRNG, EDN0 and EDN1 with fail-fast sequencing. -/
def entropy_complex_init_with (config : entropy_complex_config_t) : Drv Unit :=
  dseq entropy_complex_stop_all
  (if launder32 config.id ≠ kEntropyComplexConfigIdContinuous then dfail
   else
     dseq (entropy_src_configure config)
     (dseq csrng_configure
     (dseq (edn_configure config.edn0)
           (edn_configure config.edn1))))

/-- entropy_complex_init: the retrieved record is the continuous entry of the
build-time table. -/
def entropy_complex_init : Drv Unit :=
  entropy_complex_init_with kEntropyComplexConfigContinuous

/-- entropy_csrng_instantiate. -/
def entropy_csrng_instantiate (disable_trng_input : Nat)
    (seed_material : Option entropy_seed_material_t) : Drv Unit :=
  csrng_send_app_cmd (kBaseCsrng + CSRNG_CMD_REQ_REG_OFFSET)
    { id := kEntropyDrbgOpInstantiate
      disable_trng_input := disable_trng_input
      seed_material := seed_material
      generate_len := 0 }

/-- entropy_csrng_reseed. -/
def entropy_csrng_reseed (disable_trng_input : Nat)
    (seed_material : Option entropy_seed_material_t) : Drv Unit :=
  csrng_send_app_cmd (kBaseCsrng + CSRNG_CMD_REQ_REG_OFFSET)
    { id := kEntropyDrbgOpReseed
      disable_trng_input := disable_trng_input
      seed_material := seed_material
      generate_len := 0 }

/-- entropy_csrng_update; the C compound literal omits disable_trng_input,
leaving it zero-initialized. -/
def entropy_csrng_update (seed_material : Option entropy_seed_material_t) : Drv Unit :=
  csrng_send_app_cmd (kBaseCsrng + CSRNG_CMD_REQ_REG_OFFSET)
    { id := kEntropyDrbgOpUpdate
      disable_trng_input := 0
      seed_material := seed_material
      generate_len := 0 }

/-- entropy_csrng_generate_start: the number of 128-bit blocks is
(len + 3) / 4; disable_trng_input is zero-initialized by the compound
literal. -/
def entropy_csrng_generate_start (seed_material : Option entropy_seed_material_t)
    (len : Nat) : Drv Unit :=
  csrng_send_app_cmd (kBaseCsrng + CSRNG_CMD_REQ_REG_OFFSET)
    { id := kEntropyDrbgOpGenerate
      disable_trng_input := 0
      seed_material := seed_material
      generate_len := (len + 3) / 4 }

/-- The body of one iteration of the entropy_csrng_generate_data_get loop at
index i: poll the genbits-valid bit when i masked with
(kEntropyCsrngBitsBufferNumWords - 1) is nonzero, then read one word. -/
def genbitsWordGet (i : Nat) : Drv Nat :=
  if i &&& (kEntropyCsrngBitsBufferNumWords - 1) ≠ 0 then
    dseq (pollBitSet (kBaseCsrng + CSRNG_GENBITS_VLD_REG_OFFSET) CSRNG_GENBITS_VLD_GENBITS_VLD_BIT)
         (abs_mmio_read32 (kBaseCsrng + CSRNG_GENBITS_REG_OFFSET))
  else abs_mmio_read32 (kBaseCsrng + CSRNG_GENBITS_REG_OFFSET)

/-- The entropy_csrng_generate_data_get loop, from index i for k more words. -/
def genbitsDrain : Nat → Nat → Drv (List Nat)
  | _, 0 => dpure []
  | i, k + 1 =>
    dbind (genbitsWordGet i) (fun w =>
    dbind (genbitsDrain (i + 1) k) (fun ws =>
    dpure (w :: ws)))

/-- entropy_csrng_generate_data_get: drain len words of output; the filled
buffer is modelled as the returned list. -/
def entropy_csrng_generate_data_get (len : Nat) : Drv (List Nat) :=
  genbitsDrain 0 len

/-- entropy_csrng_generate: generate_start then generate_data_get, with
fail-fast sequencing. -/
def entropy_csrng_generate (seed_material : Option entropy_seed_material_t)
    (len : Nat) : Drv (List Nat) :=
  dseq (entropy_csrng_generate_start seed_material len)
       (entropy_csrng_generate_data_get len)

/-- entropy_csrng_uninstantiate: the source submits an Update command (not
the Uninstantiate opcode) with no seed material. -/
def entropy_csrng_uninstantiate : Drv Unit :=
  csrng_send_app_cmd (kBaseCsrng + CSRNG_CMD_REQ_REG_OFFSET)
    { id := kEntropyDrbgOpUpdate
      disable_trng_input := 0
      seed_material := none
      generate_len := 0 }

/-- The write events of a trace, in order. -/
def writesOf (t : List Ev) : List Ev :=
  t.filter (fun e => match e with | .wr _ _ => true | _ => false)

/-- Commuting a left shift past a conjunction. -/
lemma Nat_shiftLeft_and_comm (x y i : Nat) : (x <<< i) &&& y = (x &&& (y >>> i)) <<< i := by
  apply Nat.eq_of_testBit_eq
  intro j
  simp only [Nat.testBit_and, Nat.testBit_shiftLeft, Nat.testBit_shiftRight]
  by_cases h : i ≤ j
  · have : i + (j - i) = j := Nat.add_sub_cancel' h
    simp [h, this, Bool.and_assoc]
  · simp [h]

/-- Right shift distributes over disjunction. -/
lemma Nat_shiftRight_or (x y i : Nat) : (x ||| y) >>> i = (x >>> i) ||| (y >>> i) := by
  apply Nat.eq_of_testBit_eq
  intro j
  simp

/-- A left shift followed by a right shift of the same amount is the identity. -/
lemma Nat_shiftLeft_shiftRight_self (x i : Nat) : (x <<< i) >>> i = x := by
  apply Nat.eq_of_testBit_eq
  intro j
  simp

/-- Writing a field into a register that already has zeros under the mask of
the field is a plain disjunction. -/
lemma fw_preserves (r : Nat) (f : bitfield_field32_t) (v : Nat)
    (h : r &&& (mask32 ^^^ (f.mask <<< f.index)) = r) :
    bitfield_field32_write r f v = r ||| ((v &&& f.mask) <<< f.index) := by
  rw [bitfield_field32_write, h]

/-- A shifted masked term is annihilated by a field mask elsewhere. -/
lemma term_and_mask_zero (v a k m i : Nat) (h : a &&& ((m <<< i) >>> k) = 0) :
    ((v &&& a) <<< k) &&& (m <<< i) = 0 := by
  rw [Nat_shiftLeft_and_comm, Nat.and_assoc, h, Nat.and_zero, Nat.zero_shiftLeft]

/-- A shifted masked term conjoined with its own field mask. -/
lemma term_and_mask_same (v a m k : Nat) :
    ((v &&& a) <<< k) &&& (m <<< k) = ((v &&& a) &&& m) <<< k := by
  rw [Nat_shiftLeft_and_comm, Nat_shiftLeft_shiftRight_self]

/-- The application command header in disjunction normal form: the four
fields occupy disjoint bit ranges. -/
lemma appCmdHeader_eq (cmd : entropy_csrng_cmd_t) :
    appCmdHeader cmd =
      ((cmd.id &&& 0xf) ||| ((cmdLenOf cmd.seed_material &&& 0xf) <<< 4) |||
        ((cmd.generate_len &&& 0x7ffff) <<< 12)) |||
      (if cmd.disable_trng_input = kHardenedBoolTrue then 0x600 else 0) := by
  have h0 : bitfield_field32_write 0 kAppCmdFieldCmdId cmd.id = cmd.id &&& 0xf := by
    rw [bitfield_field32_write]
    simp [kAppCmdFieldCmdId]
  have c1 : ((0xf : Nat) &&& (mask32 ^^^ (kAppCmdFieldCmdLen.mask <<< kAppCmdFieldCmdLen.index))) = 0xf := by
    decide
  have e1 : (cmd.id &&& 0xf) &&& (mask32 ^^^ (kAppCmdFieldCmdLen.mask <<< kAppCmdFieldCmdLen.index)) =
      cmd.id &&& 0xf := by
    rw [Nat.and_assoc, c1]
  have h1 : bitfield_field32_write (cmd.id &&& 0xf) kAppCmdFieldCmdLen (cmdLenOf cmd.seed_material) =
      (cmd.id &&& 0xf) ||| ((cmdLenOf cmd.seed_material &&& 0xf) <<< 4) :=
    fw_preserves _ _ _ e1
  have c2a : ((0xf : Nat) &&& (mask32 ^^^ (kAppCmdFieldGlen.mask <<< kAppCmdFieldGlen.index))) = 0xf := by
    decide
  have c2b : ((0xf : Nat) &&& ((mask32 ^^^ (kAppCmdFieldGlen.mask <<< kAppCmdFieldGlen.index)) >>> 4)) = 0xf := by
    decide
  have e2 : ((cmd.id &&& 0xf) ||| ((cmdLenOf cmd.seed_material &&& 0xf) <<< 4)) &&&
        (mask32 ^^^ (kAppCmdFieldGlen.mask <<< kAppCmdFieldGlen.index)) =
      (cmd.id &&& 0xf) ||| ((cmdLenOf cmd.seed_material &&& 0xf) <<< 4) := by
    rw [Nat.and_distrib_right, Nat.and_assoc, c2a, Nat_shiftLeft_and_comm, Nat.and_assoc, c2b]
  have h2 : bitfield_field32_write
        ((cmd.id &&& 0xf) ||| ((cmdLenOf cmd.seed_material &&& 0xf) <<< 4))
        kAppCmdFieldGlen cmd.generate_len =
      ((cmd.id &&& 0xf) ||| ((cmdLenOf cmd.seed_material &&& 0xf) <<< 4)) |||
        ((cmd.generate_len &&& 0x7ffff) <<< 12) :=
    fw_preserves _ _ _ e2
  have c3a : ((0xf : Nat) &&& (mask32 ^^^ (kAppCmdFieldFlag0.mask <<< kAppCmdFieldFlag0.index))) = 0xf := by
    decide
  have c3b : ((0xf : Nat) &&& ((mask32 ^^^ (kAppCmdFieldFlag0.mask <<< kAppCmdFieldFlag0.index)) >>> 4)) = 0xf := by
    decide
  have c3c : ((0x7ffff : Nat) &&& ((mask32 ^^^ (kAppCmdFieldFlag0.mask <<< kAppCmdFieldFlag0.index)) >>> 12)) = 0x7ffff := by
    decide
  have e3 : (((cmd.id &&& 0xf) ||| ((cmdLenOf cmd.seed_material &&& 0xf) <<< 4)) |||
        ((cmd.generate_len &&& 0x7ffff) <<< 12)) &&&
        (mask32 ^^^ (kAppCmdFieldFlag0.mask <<< kAppCmdFieldFlag0.index)) =
      ((cmd.id &&& 0xf) ||| ((cmdLenOf cmd.seed_material &&& 0xf) <<< 4)) |||
        ((cmd.generate_len &&& 0x7ffff) <<< 12) := by
    rw [Nat.and_distrib_right, Nat.and_distrib_right, Nat.and_assoc, c3a,
      Nat_shiftLeft_and_comm, Nat.and_assoc, c3b,
      Nat_shiftLeft_and_comm (cmd.generate_len &&& 0x7ffff), Nat.and_assoc, c3c]
  unfold appCmdHeader launder32
  by_cases hd : cmd.disable_trng_input = kHardenedBoolTrue
  · rw [if_pos hd, if_pos hd, h0, h1, h2, fw_preserves _ _ _ e3]
    rfl
  · rw [if_neg hd, if_neg hd, h0, h1, h2, Nat.or_zero]

/-- Conjoining with a constant under associativity. -/
lemma and_assoc_const (x a b c : Nat) (h : a &&& b = c) : (x &&& a) &&& b = x &&& c := by
  rw [Nat.and_assoc, h]

/-- A shifted masked term conjoined with its own field mask, with the inner
conjunction folded. -/
lemma term_and_mask_same_val (v a m c k : Nat) (h : a &&& m = c) :
    ((v &&& a) <<< k) &&& (m <<< k) = (v &&& c) <<< k := by
  rw [term_and_mask_same, Nat.and_assoc, h]

/-- Reading the id field of the application command header. -/
lemma appCmdHeader_read_id (cmd : entropy_csrng_cmd_t) :
    bitfield_field32_read (appCmdHeader cmd) kAppCmdFieldCmdId = cmd.id &&& 0xf := by
  rw [appCmdHeader_eq, bitfield_field32_read]
  simp only [kAppCmdFieldCmdId]
  rw [Nat.and_distrib_right, Nat.and_distrib_right, Nat.and_distrib_right]
  rw [and_assoc_const _ _ _ _ (by decide : ((0xf : Nat) &&& (0xf <<< 0)) = 0xf)]
  rw [term_and_mask_zero _ _ _ _ _ (by decide : ((0xf : Nat) &&& ((0xf <<< 0) >>> 4)) = 0)]
  rw [term_and_mask_zero _ _ _ _ _ (by decide : ((0x7ffff : Nat) &&& ((0xf <<< 0) >>> 12)) = 0)]
  have hf : ((if cmd.disable_trng_input = kHardenedBoolTrue then (0x600 : Nat) else 0) &&& (0xf <<< 0)) = 0 := by
    by_cases h : cmd.disable_trng_input = kHardenedBoolTrue
    · rw [if_pos h]; decide
    · rw [if_neg h]; decide
  rw [hf]
  simp only [Nat.or_zero, Nat.zero_or]
  exact Nat.shiftRight_zero

/-- Reading the length field of the application command header. -/
lemma appCmdHeader_read_len (cmd : entropy_csrng_cmd_t) :
    bitfield_field32_read (appCmdHeader cmd) kAppCmdFieldCmdLen =
      cmdLenOf cmd.seed_material &&& 0xf := by
  rw [appCmdHeader_eq, bitfield_field32_read]
  simp only [kAppCmdFieldCmdLen]
  rw [Nat.and_distrib_right, Nat.and_distrib_right, Nat.and_distrib_right]
  rw [and_assoc_const _ _ _ _ (by decide : ((0xf : Nat) &&& (0xf <<< 4)) = 0)]
  rw [term_and_mask_same_val _ _ _ _ _ (by decide : ((0xf : Nat) &&& 0xf) = 0xf)]
  rw [term_and_mask_zero _ _ _ _ _ (by decide : ((0x7ffff : Nat) &&& ((0xf <<< 4) >>> 12)) = 0)]
  have hf : ((if cmd.disable_trng_input = kHardenedBoolTrue then (0x600 : Nat) else 0) &&& (0xf <<< 4)) = 0 := by
    by_cases h : cmd.disable_trng_input = kHardenedBoolTrue
    · rw [if_pos h]; decide
    · rw [if_neg h]; decide
  rw [hf]
  simp only [Nat.and_zero, Nat.or_zero, Nat.zero_or]
  exact Nat_shiftLeft_shiftRight_self _ _

/-- Reading the generate-length field of the application command header. -/
lemma appCmdHeader_read_glen (cmd : entropy_csrng_cmd_t) :
    bitfield_field32_read (appCmdHeader cmd) kAppCmdFieldGlen =
      cmd.generate_len &&& 0x7ffff := by
  rw [appCmdHeader_eq, bitfield_field32_read]
  simp only [kAppCmdFieldGlen]
  rw [Nat.and_distrib_right, Nat.and_distrib_right, Nat.and_distrib_right]
  rw [and_assoc_const _ _ _ _ (by decide : ((0xf : Nat) &&& (0x7ffff <<< 12)) = 0)]
  rw [term_and_mask_zero _ _ _ _ _ (by decide : ((0xf : Nat) &&& ((0x7ffff <<< 12) >>> 4)) = 0)]
  rw [term_and_mask_same_val _ _ _ _ _ (by decide : ((0x7ffff : Nat) &&& 0x7ffff) = 0x7ffff)]
  have hf : ((if cmd.disable_trng_input = kHardenedBoolTrue then (0x600 : Nat) else 0) &&& (0x7ffff <<< 12)) = 0 := by
    by_cases h : cmd.disable_trng_input = kHardenedBoolTrue
    · rw [if_pos h]; decide
    · rw [if_neg h]; decide
  rw [hf]
  simp only [Nat.and_zero, Nat.or_zero, Nat.zero_or]
  exact Nat_shiftLeft_shiftRight_self _ _

/-- Reading the flag0 field of the application command header: it equals the
multi-bit true pattern when disable_trng_input is the hardened true constant,
and raw 0 otherwise. -/
lemma appCmdHeader_read_flag0 (cmd : entropy_csrng_cmd_t) :
    bitfield_field32_read (appCmdHeader cmd) kAppCmdFieldFlag0 =
      (if cmd.disable_trng_input = kHardenedBoolTrue then kMultiBitBool4True else 0) := by
  rw [appCmdHeader_eq, bitfield_field32_read]
  simp only [kAppCmdFieldFlag0]
  rw [Nat.and_distrib_right, Nat.and_distrib_right, Nat.and_distrib_right]
  rw [and_assoc_const _ _ _ _ (by decide : ((0xf : Nat) &&& (0xf <<< 8)) = 0)]
  rw [term_and_mask_zero _ _ _ _ _ (by decide : ((0xf : Nat) &&& ((0xf <<< 8) >>> 4)) = 0)]
  rw [term_and_mask_zero _ _ _ _ _ (by decide : ((0x7ffff : Nat) &&& ((0xf <<< 8) >>> 12)) = 0)]
  simp only [Nat.and_zero, Nat.or_zero, Nat.zero_or]
  by_cases h : cmd.disable_trng_input = kHardenedBoolTrue
  · rw [if_pos h, if_pos h]
    decide
  · rw [if_neg h, if_neg h]
    decide

/-- The alert-threshold register value written by entropy_src_configure, in
disjunction normal form. -/
lemma alertReg_eq (t : Nat) :
    bitfield_field32_write
      (bitfield_field32_write 0 ENTROPY_SRC_ALERT_THRESHOLD_ALERT_THRESHOLD_FIELD t)
      ENTROPY_SRC_ALERT_THRESHOLD_ALERT_THRESHOLD_INV_FIELD (complement32 t) =
    (t &&& 0xffff) ||| (((complement32 t) &&& 0xffff) <<< 16) := by
  have h0 : bitfield_field32_write 0 ENTROPY_SRC_ALERT_THRESHOLD_ALERT_THRESHOLD_FIELD t =
      t &&& 0xffff := by
    rw [bitfield_field32_write]
    simp [ENTROPY_SRC_ALERT_THRESHOLD_ALERT_THRESHOLD_FIELD]
  rw [h0]
  have e1 : (t &&& 0xffff) &&&
      (mask32 ^^^ (ENTROPY_SRC_ALERT_THRESHOLD_ALERT_THRESHOLD_INV_FIELD.mask <<<
        ENTROPY_SRC_ALERT_THRESHOLD_ALERT_THRESHOLD_INV_FIELD.index)) = t &&& 0xffff :=
    and_assoc_const _ _ _ _ (by decide)
  exact fw_preserves _ _ _ e1

/-- Reading back the primary threshold field of the written alert register. -/
lemma alertReg_read_primary (t : Nat) :
    bitfield_field32_read
      ((t &&& 0xffff) ||| (((complement32 t) &&& 0xffff) <<< 16))
      ENTROPY_SRC_ALERT_THRESHOLD_ALERT_THRESHOLD_FIELD = t &&& 0xffff := by
  rw [bitfield_field32_read]
  simp only [ENTROPY_SRC_ALERT_THRESHOLD_ALERT_THRESHOLD_FIELD]
  rw [Nat.and_distrib_right]
  rw [and_assoc_const _ _ _ _ (by decide : ((0xffff : Nat) &&& (0xffff <<< 0)) = 0xffff)]
  rw [term_and_mask_zero _ _ _ _ _ (by decide : ((0xffff : Nat) &&& ((0xffff <<< 0) >>> 16)) = 0)]
  simp only [Nat.or_zero]
  exact Nat.shiftRight_zero

/-- Reading back the inverse threshold field of the written alert register. -/
lemma alertReg_read_inv (t : Nat) :
    bitfield_field32_read
      ((t &&& 0xffff) ||| (((complement32 t) &&& 0xffff) <<< 16))
      ENTROPY_SRC_ALERT_THRESHOLD_ALERT_THRESHOLD_INV_FIELD = (complement32 t) &&& 0xffff := by
  rw [bitfield_field32_read]
  simp only [ENTROPY_SRC_ALERT_THRESHOLD_ALERT_THRESHOLD_INV_FIELD]
  rw [Nat.and_distrib_right]
  rw [and_assoc_const _ _ _ _ (by decide : ((0xffff : Nat) &&& (0xffff <<< 16)) = 0)]
  rw [term_and_mask_same_val _ _ _ _ _ (by decide : ((0xffff : Nat) &&& 0xffff) = 0xffff)]
  simp only [Nat.and_zero, Nat.zero_or]
  exact Nat_shiftLeft_shiftRight_self _ _

/-- The low 16 bits of the 32-bit complement are the 16-bit complement of the
low 16 bits. -/
lemma complement32_low16 (t : Nat) :
    (complement32 t) &&& 0xffff = 0xffff ^^^ (t &&& 0xffff) := by
  rw [complement32, Nat.and_xor_distrib_right]
  rw [and_assoc_const _ _ _ _ (by decide : (mask32 &&& 0xffff) = 0xffff)]
  have hm : (mask32 &&& (0xffff : Nat)) = 0xffff := by decide
  rw [show (mask32 &&& (0xffff : Nat)) = 0xffff from hm]

/-- Unfolding dbind when the first computation succeeds. -/
lemma dbind_ok {α β : Type} (x : Drv α) (f : α → Drv β) (env : HwEnv) (n : Nat)
    (a : α) (t : List Ev) (m : Nat) (h : x env n = ⟨.ok a, t, m⟩) :
    dbind x f env n = ⟨(f a env m).res, t ++ (f a env m).trace, (f a env m).next⟩ := by
  unfold dbind
  rw [h]

/-- Unfolding dbind when the first computation fails. -/
lemma dbind_err {α β : Type} (x : Drv α) (f : α → Drv β) (env : HwEnv) (n : Nat)
    (t : List Ev) (m : Nat) (h : x env n = ⟨.error (), t, m⟩) :
    dbind x f env n = ⟨.error (), t, m⟩ := by
  unfold dbind
  rw [h]

/-- Unfolding dseq when the first computation succeeds. -/
lemma dseq_ok {α β : Type} (x : Drv α) (y : Drv β) (env : HwEnv) (n : Nat)
    (a : α) (t : List Ev) (m : Nat) (h : x env n = ⟨.ok a, t, m⟩) :
    dseq x y env n = ⟨(y env m).res, t ++ (y env m).trace, (y env m).next⟩ := by
  unfold dseq
  exact dbind_ok _ _ _ _ _ _ _ h

/-- Unfolding dseq when the first computation fails. -/
lemma dseq_err {α β : Type} (x : Drv α) (y : Drv β) (env : HwEnv) (n : Nat)
    (t : List Ev) (m : Nat) (h : x env n = ⟨.error (), t, m⟩) :
    dseq x y env n = ⟨.error (), t, m⟩ := by
  unfold dseq
  exact dbind_err _ _ _ _ _ _ h

/-- Running writeWords: one write event per word, no reads. -/
lemma writeWords_run (addr : Nat) (ws : List Nat) (env : HwEnv) (n : Nat) :
    writeWords addr ws env n = ⟨.ok (), ws.map (fun w => Ev.wr addr w), n⟩ := by
  induction ws generalizing n with
  | nil => rfl
  | cons w ws ih =>
    simp [writeWords, dseq, dbind, abs_mmio_write32, ih]

/-- Running csrng_send_app_cmd when the length and alignment checks pass: the
ready poll, the completion-flag clear, the header write, one write per seed
word, the completion poll and the status read, with the result decided by the
status bit of the final read. -/
lemma csrng_send_app_cmd_ok_run (addr : Nat) (cmd : entropy_csrng_cmd_t) (env : HwEnv) (n : Nat)
    (hlen : cmdLenOf cmd.seed_material &&& (mask32 ^^^ kAppCmdFieldCmdLen.mask) = 0)
    (halign : seedMisaligned cmd.seed_material = false) :
    csrng_send_app_cmd addr cmd env n =
      ⟨if bitfield_bit32_read (env.readVal (n + 2)) CSRNG_SW_CMD_STS_CMD_STS_BIT then
          .error () else .ok (),
       Ev.poll (kBaseCsrng + CSRNG_SW_CMD_STS_REG_OFFSET) CSRNG_SW_CMD_STS_CMD_RDY_BIT ::
       Ev.wr (kBaseCsrng + CSRNG_INTR_STATE_REG_OFFSET)
         (bitfield_bit32_write 0 CSRNG_INTR_STATE_CS_CMD_REQ_DONE_BIT true) ::
       Ev.wr addr (appCmdHeader cmd) ::
       ((seedWordsOf cmd.seed_material).map (fun w => Ev.wr addr w) ++
        [Ev.poll (kBaseCsrng + CSRNG_INTR_STATE_REG_OFFSET) CSRNG_INTR_STATE_CS_CMD_REQ_DONE_BIT,
         Ev.rd (kBaseCsrng + CSRNG_SW_CMD_STS_REG_OFFSET)]),
       n + 3⟩ := by
  by_cases hsts : bitfield_bit32_read (env.readVal (n + 2)) CSRNG_SW_CMD_STS_CMD_STS_BIT
  all_goals
    simp [csrng_send_app_cmd, hlen, halign, hsts, dseq, dbind, dpure, dfail,
      pollBitSet, abs_mmio_read32, abs_mmio_write32, writeWords_run]

/-- Running csrng_send_app_cmd when the length check fails: the error is
returned right after the ready poll, with no write issued. -/
lemma csrng_send_app_cmd_len_reject_run (addr : Nat) (cmd : entropy_csrng_cmd_t)
    (env : HwEnv) (n : Nat)
    (hlen : cmdLenOf cmd.seed_material &&& (mask32 ^^^ kAppCmdFieldCmdLen.mask) ≠ 0) :
    csrng_send_app_cmd addr cmd env n =
      ⟨.error (),
       [Ev.poll (kBaseCsrng + CSRNG_SW_CMD_STS_REG_OFFSET) CSRNG_SW_CMD_STS_CMD_RDY_BIT],
       n + 1⟩ := by
  simp [csrng_send_app_cmd, hlen, dseq, dbind, dfail, pollBitSet]

/-- Running csrng_send_app_cmd when the alignment check fails: the error is
returned right after the ready poll, with no write issued. -/
lemma csrng_send_app_cmd_align_reject_run (addr : Nat) (cmd : entropy_csrng_cmd_t)
    (env : HwEnv) (n : Nat)
    (hlen : cmdLenOf cmd.seed_material &&& (mask32 ^^^ kAppCmdFieldCmdLen.mask) = 0)
    (halign : seedMisaligned cmd.seed_material = true) :
    csrng_send_app_cmd addr cmd env n =
      ⟨.error (),
       [Ev.poll (kBaseCsrng + CSRNG_SW_CMD_STS_REG_OFFSET) CSRNG_SW_CMD_STS_CMD_RDY_BIT],
       n + 1⟩ := by
  simp [csrng_send_app_cmd, hlen, halign, dseq, dbind, dfail, pollBitSet]

/-- Running edn_ready_block: one poll; the result is decided by the status
bit of the polled value. -/
lemma edn_ready_block_run (a : Nat) (env : HwEnv) (n : Nat) :
    edn_ready_block a env n =
      ⟨if bitfield_bit32_read (env.readVal n) EDN_SW_CMD_STS_CMD_STS_BIT then
          .error () else .ok (),
       [Ev.poll (a + EDN_SW_CMD_STS_REG_OFFSET) EDN_SW_CMD_STS_CMD_RDY_BIT],
       n + 1⟩ := by
  by_cases h : bitfield_bit32_read (env.readVal n) EDN_SW_CMD_STS_CMD_STS_BIT
  all_goals simp [edn_ready_block, dbind, pollBitSet, dfail, dpure, h]

/-- Running entropy_complex_stop_all: the full write order, EDN0 disable
sequence, EDN1 disable sequence, CSRNG control reset, then the five
entropy-source reset writes. -/
lemma stop_all_run (env : HwEnv) (n : Nat) :
    entropy_complex_stop_all env n =
      ⟨.ok (),
       [Ev.rd (kBaseEdn0 + EDN_CTRL_REG_OFFSET),
        Ev.wr (kBaseEdn0 + EDN_CTRL_REG_OFFSET)
          (bitfield_field32_write (env.readVal n) EDN_CTRL_CMD_FIFO_RST_FIELD kMultiBitBool4True),
        Ev.wr (kBaseEdn0 + EDN_CTRL_REG_OFFSET) EDN_CTRL_REG_RESVAL,
        Ev.rd (kBaseEdn1 + EDN_CTRL_REG_OFFSET),
        Ev.wr (kBaseEdn1 + EDN_CTRL_REG_OFFSET)
          (bitfield_field32_write (env.readVal (n + 1)) EDN_CTRL_CMD_FIFO_RST_FIELD kMultiBitBool4True),
        Ev.wr (kBaseEdn1 + EDN_CTRL_REG_OFFSET) EDN_CTRL_REG_RESVAL,
        Ev.wr (kBaseCsrng + CSRNG_CTRL_REG_OFFSET) CSRNG_CTRL_REG_RESVAL,
        Ev.wr (kBaseEntropySrc + ENTROPY_SRC_MODULE_ENABLE_REG_OFFSET)
          ENTROPY_SRC_MODULE_ENABLE_REG_RESVAL,
        Ev.wr (kBaseEntropySrc + ENTROPY_SRC_ENTROPY_CONTROL_REG_OFFSET)
          ENTROPY_SRC_ENTROPY_CONTROL_REG_RESVAL,
        Ev.wr (kBaseEntropySrc + ENTROPY_SRC_CONF_REG_OFFSET) ENTROPY_SRC_CONF_REG_RESVAL,
        Ev.wr (kBaseEntropySrc + ENTROPY_SRC_HEALTH_TEST_WINDOWS_REG_OFFSET)
          ENTROPY_SRC_HEALTH_TEST_WINDOWS_REG_RESVAL,
        Ev.wr (kBaseEntropySrc + ENTROPY_SRC_ALERT_THRESHOLD_REG_OFFSET)
          ENTROPY_SRC_ALERT_THRESHOLD_REG_RESVAL],
       n + 2⟩ := by
  simp [entropy_complex_stop_all, edn_stop, entropy_src_stop, dseq, dbind,
    abs_mmio_read32, abs_mmio_write32]

/-- entropy_src_configure always succeeds. -/
lemma entropy_src_configure_res (cfg : entropy_complex_config_t) (env : HwEnv) (n : Nat) :
    (entropy_src_configure cfg env n).res = .ok () := rfl

/-- entropy_src_configure issues no read. -/
lemma entropy_src_configure_next (cfg : entropy_complex_config_t) (env : HwEnv) (n : Nat) :
    (entropy_src_configure cfg env n).next = n := rfl

/-- The fourth event of entropy_src_configure is the alert-threshold write. -/
lemma entropy_src_configure_alert_ev (cfg : entropy_complex_config_t) (env : HwEnv) (n : Nat) :
    (entropy_src_configure cfg env n).trace.get? 3 =
      some (Ev.wr (kBaseEntropySrc + ENTROPY_SRC_ALERT_THRESHOLD_REG_OFFSET)
        (bitfield_field32_write
          (bitfield_field32_write 0 ENTROPY_SRC_ALERT_THRESHOLD_ALERT_THRESHOLD_FIELD
            cfg.alert_threshold)
          ENTROPY_SRC_ALERT_THRESHOLD_ALERT_THRESHOLD_INV_FIELD
          (complement32 cfg.alert_threshold))) := rfl

/-- csrng_configure always succeeds with one write and no read. -/
lemma csrng_configure_run (env : HwEnv) (n : Nat) :
    csrng_configure env n =
      ⟨.ok (),
       [Ev.wr (kBaseCsrng + CSRNG_CTRL_REG_OFFSET)
         (bitfield_field32_write
           (bitfield_field32_write
             (bitfield_field32_write 0 CSRNG_CTRL_ENABLE_FIELD kMultiBitBool4True)
             CSRNG_CTRL_SW_APP_ENABLE_FIELD kMultiBitBool4True)
           CSRNG_CTRL_READ_INT_STATE_FIELD kMultiBitBool4True)],
       n⟩ := rfl

/-- The hardware interactions one loop iteration of the output drain performs
at word index i: per the source condition, a genbits-valid poll exactly when
i is not a multiple of 4, then one genbits read. -/
def drainStepTrace (i : Nat) : List Ev :=
  (if i % 4 ≠ 0 then
    [Ev.poll (kBaseCsrng + CSRNG_GENBITS_VLD_REG_OFFSET) CSRNG_GENBITS_VLD_GENBITS_VLD_BIT]
   else []) ++ [Ev.rd (kBaseCsrng + CSRNG_GENBITS_REG_OFFSET)]

/-- The source's power-of-two masking test equals a mod-4 test. -/
lemma genbits_mask_eq (i : Nat) : i &&& (kEntropyCsrngBitsBufferNumWords - 1) = i % 4 := by
  have h := Nat.and_pow_two_sub_one_eq_mod i 2
  norm_num [kEntropyCsrngBitsBufferNumWords] at h ⊢
  exact h

/-- One drain iteration: some word value and counter, with the step trace. -/
lemma genbitsWordGet_run (i : Nat) (env : HwEnv) (n : Nat) :
    ∃ v m, genbitsWordGet i env n = ⟨.ok v, drainStepTrace i, m⟩ := by
  by_cases h : i % 4 = 0
  · refine ⟨env.readVal n, n + 1, ?_⟩
    simp [genbitsWordGet, genbits_mask_eq, h, drainStepTrace, abs_mmio_read32]
  · refine ⟨env.readVal (n + 1), n + 2, ?_⟩
    simp [genbitsWordGet, genbits_mask_eq, h, drainStepTrace, dseq, dbind,
      pollBitSet, abs_mmio_read32]

/-- The drain loop from index i for k words: succeeds with k words and emits
exactly the concatenation of the per-index step traces. -/
lemma genbitsDrain_run (k : Nat) : ∀ (i : Nat) (env : HwEnv) (n : Nat),
    ∃ ws m, genbitsDrain i k env n = ⟨.ok ws, (List.range' i k).flatMap drainStepTrace, m⟩ ∧
      ws.length = k := by
  induction k with
  | zero =>
    intro i env n
    exact ⟨[], n, rfl, rfl⟩
  | succ k ih =>
    intro i env n
    obtain ⟨v, m, hv⟩ := genbitsWordGet_run i env n
    obtain ⟨ws, m2, hdrain, hlen⟩ := ih (i + 1) env m
    refine ⟨v :: ws, m2, ?_, by simp [hlen]⟩
    show dbind (genbitsWordGet i) _ env n = _
    rw [dbind_ok _ _ _ _ _ _ _ hv, dbind_ok _ _ _ _ _ _ _ hdrain]
    simp [dpure, List.range'_succ]

/-- Whether an event is one the drain loop may emit: a genbits-valid poll or
a genbits data read (in particular not a write, and not an access to any
status or error register). -/
def isDrainEv : Ev → Bool
  | .poll a b => a == kBaseCsrng + CSRNG_GENBITS_VLD_REG_OFFSET &&
      b == CSRNG_GENBITS_VLD_GENBITS_VLD_BIT
  | .rd a => a == kBaseCsrng + CSRNG_GENBITS_REG_OFFSET
  | .wr _ _ => false

/-- Every event of one drain step is a drain event. -/
lemma drainStepTrace_all (i : Nat) : (drainStepTrace i).all isDrainEv = true := by
  by_cases h : i % 4 = 0 <;> simp [drainStepTrace, h] <;> decide

/-- Every event of a concatenation of drain steps is a drain event. -/
lemma bind_drainStepTrace_all (l : List Nat) : ((l.flatMap drainStepTrace).all isDrainEv) = true := by
  induction l with
  | nil => rfl
  | cons a l ih => simp [List.flatMap_cons, List.all_append, ih, drainStepTrace_all a]

/-- A word count of at most 15 passes the command-length check. -/
lemma lowmask_check_zero_of_le (L : Nat) (h : L ≤ 15) :
    L &&& (mask32 ^^^ kAppCmdFieldCmdLen.mask) = 0 := by
  apply Nat.eq_of_testBit_eq
  intro j
  simp only [Nat.testBit_and, Nat.zero_testBit]
  by_cases hj : j < 4
  · have hc : (mask32 ^^^ kAppCmdFieldCmdLen.mask).testBit j = false := by
      interval_cases j <;> decide
    simp [hc]
  · have hL : L.testBit j = false := by
      apply Nat.testBit_lt_two_pow
      calc L < 2 ^ 4 := by omega
        _ ≤ 2 ^ j := Nat.pow_le_pow_right (by norm_num) (by omega)
    simp [hL]

/-- A uint32 word count above 15 fails the command-length check. -/
lemma lowmask_check_ne_zero (L : Nat) (h15 : 15 < L) (h32 : L < 2 ^ 32) :
    L &&& (mask32 ^^^ kAppCmdFieldCmdLen.mask) ≠ 0 := by
  intro h0
  have h1 : L &&& mask32 = L := by
    rw [mask32]
    exact Nat.and_pow_two_sub_one_of_lt_two_pow h32
  have h2 : (mask32 : Nat) = kAppCmdFieldCmdLen.mask ||| (mask32 ^^^ kAppCmdFieldCmdLen.mask) := by
    decide
  have h3 : L = (L &&& kAppCmdFieldCmdLen.mask) ||| (L &&& (mask32 ^^^ kAppCmdFieldCmdLen.mask)) := by
    conv_lhs => rw [← h1, h2]
    exact Nat.and_or_distrib_left _ _ _
  rw [h0, Nat.or_zero] at h3
  have h4 : L &&& kAppCmdFieldCmdLen.mask ≤ 15 := Nat.and_le_right
  omega

/-- A value of at most 15 is fixed by the 4-bit mask. -/
lemma and15_of_le (x : Nat) (h : x ≤ 15) : x &&& 0xf = x := by
  have h2 := Nat.and_pow_two_sub_one_of_lt_two_pow (x := x) (n := 4) (by omega)
  norm_num at h2
  exact h2

/-- A value below 2 to the 19 is fixed by the 19-bit mask. -/
lemma and7ffff_of_lt (x : Nat) (h : x < 2 ^ 19) : x &&& 0x7ffff = x := by
  have h2 := Nat.and_pow_two_sub_one_of_lt_two_pow (x := x) (n := 19) h
  norm_num at h2
  exact h2

/-- A constant hardware oracle; every read returns 1, so the CSRNG
command-status bit (bit 1) is clear and commands succeed. -/
def envConst1 : HwEnv := ⟨fun _ => 1⟩

/-- An oracle on which every read returns the EDN control reset value. -/
def envEdnResval : HwEnv := ⟨fun _ => EDN_CTRL_REG_RESVAL⟩

/-- An oracle on which every read returns 2, so the CSRNG command-status bit
(bit 1) is set and every submitted command is rejected by the hardware. -/
def envStsErr : HwEnv := ⟨fun _ => 2⟩

/-- Modelled from the spec (claim C1): the claimed poll placement of the
output drain - an output-valid poll immediately before each word index that
is a nonzero multiple of 4 (4, 8, 12, ...), and no poll before index 0 or
before any index that is not a multiple of 4; one genbits read per word. -/
def specClaimDrainTrace (len : Nat) : List Ev :=
  (List.range len).flatMap (fun i =>
    (if i % 4 = 0 ∧ i ≠ 0 then
      [Ev.poll (kBaseCsrng + CSRNG_GENBITS_VLD_REG_OFFSET) CSRNG_GENBITS_VLD_GENBITS_VLD_BIT]
     else []) ++ [Ev.rd (kBaseCsrng + CSRNG_GENBITS_REG_OFFSET)])

/-- C1 counterexample: draining 5 words does not produce the claimed trace.
The code polls before indices 1, 2 and 3 and does not poll before index 4,
while the claim requires a poll before index 4 only. -/
theorem c1_drain_poll_counterexample :
    (entropy_csrng_generate_data_get 5 envConst1 0).trace ≠ specClaimDrainTrace 5 := by
  decide

/-- C1 (amended): for every word count N, the drain issues an output-valid
poll immediately before reading each word whose index is NOT a multiple of 4,
issues no poll before index 0 or before any index that is a multiple of 4,
and reads exactly N words in order. -/
theorem c1_drain_poll_placement (len : Nat) (env : HwEnv) (n : Nat) :
    (entropy_csrng_generate_data_get len env n).trace =
      (List.range len).flatMap drainStepTrace ∧
    ∃ ws, (entropy_csrng_generate_data_get len env n).res = .ok ws ∧ ws.length = len := by
  obtain ⟨ws, m, h, hlen⟩ := genbitsDrain_run len 0 env n
  have hdg : entropy_csrng_generate_data_get len env n = genbitsDrain 0 len env n := rfl
  rw [hdg, h, List.range_eq_range']
  exact ⟨rfl, ws, rfl, hlen⟩

/-- Modelled from the spec (claim C2): the claimed stop_all write sequence -
the two EDN0 disable writes, the two EDN1 disable writes, the CSRNG control
reset, then exactly four noise-source reset writes (module-enable,
entropy-control, conf, health-test-window) and nothing else. -/
def specClaimStopAllWrites (v0 v1 : Nat) : List Ev :=
  [Ev.wr (kBaseEdn0 + EDN_CTRL_REG_OFFSET) v0,
   Ev.wr (kBaseEdn0 + EDN_CTRL_REG_OFFSET) EDN_CTRL_REG_RESVAL,
   Ev.wr (kBaseEdn1 + EDN_CTRL_REG_OFFSET) v1,
   Ev.wr (kBaseEdn1 + EDN_CTRL_REG_OFFSET) EDN_CTRL_REG_RESVAL,
   Ev.wr (kBaseCsrng + CSRNG_CTRL_REG_OFFSET) CSRNG_CTRL_REG_RESVAL,
   Ev.wr (kBaseEntropySrc + ENTROPY_SRC_MODULE_ENABLE_REG_OFFSET)
     ENTROPY_SRC_MODULE_ENABLE_REG_RESVAL,
   Ev.wr (kBaseEntropySrc + ENTROPY_SRC_ENTROPY_CONTROL_REG_OFFSET)
     ENTROPY_SRC_ENTROPY_CONTROL_REG_RESVAL,
   Ev.wr (kBaseEntropySrc + ENTROPY_SRC_CONF_REG_OFFSET) ENTROPY_SRC_CONF_REG_RESVAL,
   Ev.wr (kBaseEntropySrc + ENTROPY_SRC_HEALTH_TEST_WINDOWS_REG_OFFSET)
     ENTROPY_SRC_HEALTH_TEST_WINDOWS_REG_RESVAL]

/-- C2 counterexample: on a concrete oracle the write sequence of stop_all is
not the claimed nine-write sequence; it contains a tenth write, to the
alert-threshold register, which is none of the four noise-source registers
the claim allows. -/
theorem c2_stop_all_counterexample :
    writesOf ((entropy_complex_stop_all envEdnResval 0).trace) ≠
      specClaimStopAllWrites
        (bitfield_field32_write EDN_CTRL_REG_RESVAL EDN_CTRL_CMD_FIFO_RST_FIELD kMultiBitBool4True)
        (bitfield_field32_write EDN_CTRL_REG_RESVAL EDN_CTRL_CMD_FIFO_RST_FIELD kMultiBitBool4True) ∧
    Ev.wr (kBaseEntropySrc + ENTROPY_SRC_ALERT_THRESHOLD_REG_OFFSET)
        ENTROPY_SRC_ALERT_THRESHOLD_REG_RESVAL ∈
      writesOf ((entropy_complex_stop_all envEdnResval 0).trace) := by
  constructor
  · decide
  · decide

/-- C2 (amended): every call to stop_all issues exactly these register writes
in this order: the EDN0 disable sequence (FIFO-reset assert then control
reset), the EDN1 disable sequence, the CSRNG control reset, then a
noise-source reset sequence of exactly five writes (module-enable,
entropy-control, conf, health-test-window and alert-threshold), and no other
writes. -/
theorem c2_stop_all_write_order (env : HwEnv) (n : Nat) :
    writesOf ((entropy_complex_stop_all env n).trace) =
      [Ev.wr (kBaseEdn0 + EDN_CTRL_REG_OFFSET)
         (bitfield_field32_write (env.readVal n) EDN_CTRL_CMD_FIFO_RST_FIELD kMultiBitBool4True),
       Ev.wr (kBaseEdn0 + EDN_CTRL_REG_OFFSET) EDN_CTRL_REG_RESVAL,
       Ev.wr (kBaseEdn1 + EDN_CTRL_REG_OFFSET)
         (bitfield_field32_write (env.readVal (n + 1)) EDN_CTRL_CMD_FIFO_RST_FIELD kMultiBitBool4True),
       Ev.wr (kBaseEdn1 + EDN_CTRL_REG_OFFSET) EDN_CTRL_REG_RESVAL,
       Ev.wr (kBaseCsrng + CSRNG_CTRL_REG_OFFSET) CSRNG_CTRL_REG_RESVAL,
       Ev.wr (kBaseEntropySrc + ENTROPY_SRC_MODULE_ENABLE_REG_OFFSET)
         ENTROPY_SRC_MODULE_ENABLE_REG_RESVAL,
       Ev.wr (kBaseEntropySrc + ENTROPY_SRC_ENTROPY_CONTROL_REG_OFFSET)
         ENTROPY_SRC_ENTROPY_CONTROL_REG_RESVAL,
       Ev.wr (kBaseEntropySrc + ENTROPY_SRC_CONF_REG_OFFSET) ENTROPY_SRC_CONF_REG_RESVAL,
       Ev.wr (kBaseEntropySrc + ENTROPY_SRC_HEALTH_TEST_WINDOWS_REG_OFFSET)
         ENTROPY_SRC_HEALTH_TEST_WINDOWS_REG_RESVAL,
       Ev.wr (kBaseEntropySrc + ENTROPY_SRC_ALERT_THRESHOLD_REG_OFFSET)
         ENTROPY_SRC_ALERT_THRESHOLD_REG_RESVAL] := by
  rw [stop_all_run]
  rfl

/-- C4: a command whose seed-material word count exceeds 15 or whose
seed-material data pointer is not 4-byte aligned fails with the internal
error right after the initial ready poll, with zero register writes. -/
theorem c4_reject_no_writes (addr : Nat) (cmd : entropy_csrng_cmd_t) (env : HwEnv) (n : Nat)
    (hbound : cmdLenOf cmd.seed_material < 2 ^ 32)
    (h : 15 < cmdLenOf cmd.seed_material ∨ seedMisaligned cmd.seed_material = true) :
    csrng_send_app_cmd addr cmd env n =
      ⟨.error (),
       [Ev.poll (kBaseCsrng + CSRNG_SW_CMD_STS_REG_OFFSET) CSRNG_SW_CMD_STS_CMD_RDY_BIT],
       n + 1⟩ ∧
    writesOf (csrng_send_app_cmd addr cmd env n).trace = [] := by
  have key : csrng_send_app_cmd addr cmd env n =
      ⟨.error (),
       [Ev.poll (kBaseCsrng + CSRNG_SW_CMD_STS_REG_OFFSET) CSRNG_SW_CMD_STS_CMD_RDY_BIT],
       n + 1⟩ := by
    by_cases hL : 15 < cmdLenOf cmd.seed_material
    · exact csrng_send_app_cmd_len_reject_run _ _ _ _ (lowmask_check_ne_zero _ hL hbound)
    · have hle : cmdLenOf cmd.seed_material ≤ 15 := by omega
      have hmis : seedMisaligned cmd.seed_material = true := by
        rcases h with h | h
        · omega
        · exact h
      exact csrng_send_app_cmd_align_reject_run _ _ _ _ (lowmask_check_zero_of_le _ hle) hmis
  refine ⟨key, ?_⟩
  rw [key]
  rfl

/-- A 16-word seed-material buffer (word-aligned), one word too long for the
4-bit length field. -/
def seedLen16 : entropy_seed_material_t := ⟨16, [], 0⟩

/-- C4 witness at a concrete over-long seed. -/
theorem c4_reject_no_writes_witness :
    cmdLenOf (some seedLen16) < 2 ^ 32 ∧
    (15 < cmdLenOf (some seedLen16) ∨ seedMisaligned (some seedLen16) = true) ∧
    csrng_send_app_cmd (kBaseCsrng + CSRNG_CMD_REQ_REG_OFFSET)
        ⟨kEntropyDrbgOpInstantiate, 0, some seedLen16, 0⟩ envConst1 0 =
      ⟨.error (),
       [Ev.poll (kBaseCsrng + CSRNG_SW_CMD_STS_REG_OFFSET) CSRNG_SW_CMD_STS_CMD_RDY_BIT],
       1⟩ :=
  ⟨by decide, Or.inl (by decide),
   (c4_reject_no_writes (kBaseCsrng + CSRNG_CMD_REQ_REG_OFFSET)
     ⟨kEntropyDrbgOpInstantiate, 0, some seedLen16, 0⟩ envConst1 0
     (by decide) (Or.inl (by decide))).1⟩

/-- C5: the alert-threshold register written by the noise-source configure
routine (its fourth write) always carries, in the inverse field, the 16-bit
bitwise complement of the value in the primary threshold field; this holds
for every configuration record, including alert threshold 0. -/
theorem c5_alert_threshold_inverse (cfg : entropy_complex_config_t) (env : HwEnv) (n : Nat) :
    ∃ w,
      (entropy_src_configure cfg env n).trace.get? 3 =
        some (Ev.wr (kBaseEntropySrc + ENTROPY_SRC_ALERT_THRESHOLD_REG_OFFSET) w) ∧
      bitfield_field32_read w ENTROPY_SRC_ALERT_THRESHOLD_ALERT_THRESHOLD_INV_FIELD =
        0xffff ^^^
          bitfield_field32_read w ENTROPY_SRC_ALERT_THRESHOLD_ALERT_THRESHOLD_FIELD := by
  refine ⟨_, entropy_src_configure_alert_ev cfg env n, ?_⟩
  rw [alertReg_eq, alertReg_read_inv, alertReg_read_primary, complement32_low16]

/-- C10: the drain has no failure path - for every word count and oracle it
returns success with the requested number of words; it touches only the
genbits-valid bit (polls) and the genbits data register (reads), never any
error or status bit; and with word count 0 it performs no register access at
all. -/
theorem c10_drain_no_failure (len : Nat) (env : HwEnv) (n : Nat) :
    (∃ ws, (entropy_csrng_generate_data_get len env n).res = .ok ws ∧ ws.length = len) ∧
    (entropy_csrng_generate_data_get len env n).trace.all isDrainEv = true ∧
    entropy_csrng_generate_data_get 0 env n = ⟨.ok [], [], n⟩ := by
  obtain ⟨ws, m, h, hlen⟩ := genbitsDrain_run len 0 env n
  have hdg : entropy_csrng_generate_data_get len env n = genbitsDrain 0 len env n := rfl
  refine ⟨⟨ws, by rw [hdg, h], hlen⟩, ?_, rfl⟩
  rw [hdg, h]
  exact bind_drainStepTrace_all _

/-- C3: for every command with seed-material word count L at most 15 on a
4-byte-aligned buffer (and an opcode and a generate length within their
fields), the 32-bit header written by the submit routine as its third
hardware interaction has bits 3:0 equal to the opcode id, bits 7:4 equal to
L, bits 11:8 equal to the encoded multi-bit true pattern exactly when
disable-noise-input was requested, and bits 30:12 equal to the requested
generate length in 128-bit blocks. -/
theorem c3_header_encoding (addr : Nat) (cmd : entropy_csrng_cmd_t) (env : HwEnv) (n : Nat)
    (hid : cmd.id ≤ 15)
    (hlen : cmdLenOf cmd.seed_material ≤ 15)
    (halign : seedMisaligned cmd.seed_material = false)
    (hglen : cmd.generate_len < 2 ^ 19) :
    (csrng_send_app_cmd addr cmd env n).trace.get? 2 = some (Ev.wr addr (appCmdHeader cmd)) ∧
    bitfield_field32_read (appCmdHeader cmd) kAppCmdFieldCmdId = cmd.id ∧
    bitfield_field32_read (appCmdHeader cmd) kAppCmdFieldCmdLen = cmdLenOf cmd.seed_material ∧
    (bitfield_field32_read (appCmdHeader cmd) kAppCmdFieldFlag0 = kMultiBitBool4True ↔
      cmd.disable_trng_input = kHardenedBoolTrue) ∧
    bitfield_field32_read (appCmdHeader cmd) kAppCmdFieldGlen = cmd.generate_len := by
  refine ⟨?_, ?_, ?_, ?_, ?_⟩
  · rw [csrng_send_app_cmd_ok_run addr cmd env n (lowmask_check_zero_of_le _ hlen) halign]
    rfl
  · rw [appCmdHeader_read_id, and15_of_le _ hid]
  · rw [appCmdHeader_read_len, and15_of_le _ hlen]
  · rw [appCmdHeader_read_flag0]
    constructor
    · intro hf
      by_cases hd : cmd.disable_trng_input = kHardenedBoolTrue
      · exact hd
      · rw [if_neg hd] at hf
        exact absurd hf (by decide)
    · intro hd
      rw [if_pos hd]
  · rw [appCmdHeader_read_glen, and7ffff_of_lt _ hglen]

/-- A 2-word aligned seed-material buffer used as a concrete witness input. -/
def seedTwoWords : entropy_seed_material_t := ⟨2, [5, 7], 8⟩

/-- C3 witness at a concrete instantiate command with two seed words and
disable-noise-input requested. -/
theorem c3_header_encoding_witness :
    (⟨kEntropyDrbgOpInstantiate, kHardenedBoolTrue, some seedTwoWords, 4⟩ :
        entropy_csrng_cmd_t).id ≤ 15 ∧
    cmdLenOf (some seedTwoWords) ≤ 15 ∧
    seedMisaligned (some seedTwoWords) = false ∧
    (4 : Nat) < 2 ^ 19 ∧
    bitfield_field32_read
        (appCmdHeader ⟨kEntropyDrbgOpInstantiate, kHardenedBoolTrue, some seedTwoWords, 4⟩)
        kAppCmdFieldCmdLen = cmdLenOf (some seedTwoWords) :=
  ⟨by decide, by decide, by decide, by decide,
   (c3_header_encoding (kBaseCsrng + CSRNG_CMD_REQ_REG_OFFSET)
     ⟨kEntropyDrbgOpInstantiate, kHardenedBoolTrue, some seedTwoWords, 4⟩ envConst1 0
     (by decide) (by decide) (by decide) (by decide)).2.2.1⟩

/-- The result of a submitted command as decided by the hardware status bit
read at the end of the submit protocol (the third read of the call). -/
def hwStatusResult (env : HwEnv) (n : Nat) : Except Unit Unit :=
  if bitfield_bit32_read (env.readVal (n + 2)) CSRNG_SW_CMD_STS_CMD_STS_BIT then
    .error ()
  else .ok ()

/-- C8: a command with a null seed-material reference is treated as length 0:
the header length field is 0, the submit routine issues exactly the two
writes of the protocol (completion-flag clear and header) and no payload
write, the alignment rejection cannot trigger (the result is decided only by
the hardware status bit), and every public command operation accepts a null
seed-material reference. -/
theorem c8_null_seed_accepted (addr id d g : Nat) (env : HwEnv) (n : Nat) :
    csrng_send_app_cmd addr ⟨id, d, none, g⟩ env n =
      ⟨hwStatusResult env n,
       [Ev.poll (kBaseCsrng + CSRNG_SW_CMD_STS_REG_OFFSET) CSRNG_SW_CMD_STS_CMD_RDY_BIT,
        Ev.wr (kBaseCsrng + CSRNG_INTR_STATE_REG_OFFSET)
          (bitfield_bit32_write 0 CSRNG_INTR_STATE_CS_CMD_REQ_DONE_BIT true),
        Ev.wr addr (appCmdHeader ⟨id, d, none, g⟩),
        Ev.poll (kBaseCsrng + CSRNG_INTR_STATE_REG_OFFSET) CSRNG_INTR_STATE_CS_CMD_REQ_DONE_BIT,
        Ev.rd (kBaseCsrng + CSRNG_SW_CMD_STS_REG_OFFSET)],
       n + 3⟩ ∧
    bitfield_field32_read (appCmdHeader ⟨id, d, none, g⟩) kAppCmdFieldCmdLen = 0 ∧
    (entropy_csrng_instantiate d none env n).res = hwStatusResult env n ∧
    (entropy_csrng_reseed d none env n).res = hwStatusResult env n ∧
    (entropy_csrng_update none env n).res = hwStatusResult env n ∧
    (entropy_csrng_generate_start none g env n).res = hwStatusResult env n ∧
    (entropy_csrng_uninstantiate env n).res = hwStatusResult env n := by
  refine ⟨?_, ?_, ?_, ?_, ?_, ?_, ?_⟩
  · rw [csrng_send_app_cmd_ok_run addr ⟨id, d, none, g⟩ env n (lowmask_check_zero_of_le _ (by simp [cmdLenOf])) (by simp [seedMisaligned])]
    rfl
  · rw [appCmdHeader_read_len]
    simp [cmdLenOf]
  · show (csrng_send_app_cmd (kBaseCsrng + CSRNG_CMD_REQ_REG_OFFSET)
      ⟨kEntropyDrbgOpInstantiate, d, none, 0⟩ env n).res = hwStatusResult env n
    rw [csrng_send_app_cmd_ok_run (kBaseCsrng + CSRNG_CMD_REQ_REG_OFFSET)
      ⟨kEntropyDrbgOpInstantiate, d, none, 0⟩ env n
      (lowmask_check_zero_of_le _ (by simp [cmdLenOf])) (by simp [seedMisaligned])]
    rfl
  · show (csrng_send_app_cmd (kBaseCsrng + CSRNG_CMD_REQ_REG_OFFSET)
      ⟨kEntropyDrbgOpReseed, d, none, 0⟩ env n).res = hwStatusResult env n
    rw [csrng_send_app_cmd_ok_run (kBaseCsrng + CSRNG_CMD_REQ_REG_OFFSET)
      ⟨kEntropyDrbgOpReseed, d, none, 0⟩ env n
      (lowmask_check_zero_of_le _ (by simp [cmdLenOf])) (by simp [seedMisaligned])]
    rfl
  · show (csrng_send_app_cmd (kBaseCsrng + CSRNG_CMD_REQ_REG_OFFSET)
      ⟨kEntropyDrbgOpUpdate, 0, none, 0⟩ env n).res = hwStatusResult env n
    rw [csrng_send_app_cmd_ok_run (kBaseCsrng + CSRNG_CMD_REQ_REG_OFFSET)
      ⟨kEntropyDrbgOpUpdate, 0, none, 0⟩ env n
      (lowmask_check_zero_of_le _ (by simp [cmdLenOf])) (by simp [seedMisaligned])]
    rfl
  · show (csrng_send_app_cmd (kBaseCsrng + CSRNG_CMD_REQ_REG_OFFSET)
      ⟨kEntropyDrbgOpGenerate, 0, none, (g + 3) / 4⟩ env n).res = hwStatusResult env n
    rw [csrng_send_app_cmd_ok_run (kBaseCsrng + CSRNG_CMD_REQ_REG_OFFSET)
      ⟨kEntropyDrbgOpGenerate, 0, none, (g + 3) / 4⟩ env n
      (lowmask_check_zero_of_le _ (by simp [cmdLenOf])) (by simp [seedMisaligned])]
    rfl
  · show (csrng_send_app_cmd (kBaseCsrng + CSRNG_CMD_REQ_REG_OFFSET)
      ⟨kEntropyDrbgOpUpdate, 0, none, 0⟩ env n).res = hwStatusResult env n
    rw [csrng_send_app_cmd_ok_run (kBaseCsrng + CSRNG_CMD_REQ_REG_OFFSET)
      ⟨kEntropyDrbgOpUpdate, 0, none, 0⟩ env n
      (lowmask_check_zero_of_le _ (by simp [cmdLenOf])) (by simp [seedMisaligned])]
    rfl

/-- C9: whenever disable-noise-input is any value other than the hardened
true constant - including the all-zero value produced by leaving the field
unset, as in update, uninstantiate and the built-in EDN1 generate template -
the header flag0 field is raw 0, not the encoded multi-bit false pattern. -/
theorem c9_flag0_raw_zero (id d g : Nat) (s : Option entropy_seed_material_t)
    (env : HwEnv) (n : Nat) (h : d ≠ kHardenedBoolTrue) :
    bitfield_field32_read (appCmdHeader ⟨id, d, s, g⟩) kAppCmdFieldFlag0 = 0 ∧
    (0 : Nat) ≠ kMultiBitBool4False ∧
    kEntropyComplexConfigContinuous.edn1.generate.disable_trng_input = 0 ∧
    bitfield_field32_read (appCmdHeader kEntropyComplexConfigContinuous.edn1.generate)
      kAppCmdFieldFlag0 = 0 ∧
    (entropy_csrng_uninstantiate env n).trace.get? 2 =
      some (Ev.wr (kBaseCsrng + CSRNG_CMD_REQ_REG_OFFSET)
        (appCmdHeader ⟨kEntropyDrbgOpUpdate, 0, none, 0⟩)) ∧
    bitfield_field32_read (appCmdHeader ⟨kEntropyDrbgOpUpdate, 0, none, 0⟩)
      kAppCmdFieldFlag0 = 0 := by
  refine ⟨?_, by decide, rfl, by decide, ?_, by decide⟩
  · rw [appCmdHeader_read_flag0]
    exact if_neg h
  · show (csrng_send_app_cmd (kBaseCsrng + CSRNG_CMD_REQ_REG_OFFSET)
      ⟨kEntropyDrbgOpUpdate, 0, none, 0⟩ env n).trace.get? 2 = _
    rw [csrng_send_app_cmd_ok_run (kBaseCsrng + CSRNG_CMD_REQ_REG_OFFSET)
      ⟨kEntropyDrbgOpUpdate, 0, none, 0⟩ env n
      (lowmask_check_zero_of_le _ (by simp [cmdLenOf])) (by simp [seedMisaligned])]
    rfl

/-- C9 witness at the zero-initialized flag value. -/
theorem c9_flag0_raw_zero_witness :
    (0 : Nat) ≠ kHardenedBoolTrue ∧
    bitfield_field32_read (appCmdHeader ⟨kEntropyDrbgOpUpdate, 0, none, 0⟩)
      kAppCmdFieldFlag0 = 0 :=
  ⟨by decide,
   (c9_flag0_raw_zero kEntropyDrbgOpUpdate 0 0 none envConst1 0 (by decide)).1⟩

/-- C7: generate_start submits a Generate command whose generate length in
128-bit blocks is the rounded-up word count, (len + 3) / 4; in particular a
word count of 10 yields block count 3; and when generate_start fails,
generate performs no output read - its result and trace are exactly those of
the failed generate_start. -/
theorem c7_generate_block_count (len : Nat) (seed : Option entropy_seed_material_t)
    (env : HwEnv) (n : Nat)
    (hlen : cmdLenOf seed ≤ 15) (halign : seedMisaligned seed = false)
    (hglen : (len + 3) / 4 < 2 ^ 19) :
    ((entropy_csrng_generate_start seed len env n).trace.get? 2 =
      some (Ev.wr (kBaseCsrng + CSRNG_CMD_REQ_REG_OFFSET)
        (appCmdHeader ⟨kEntropyDrbgOpGenerate, 0, seed, (len + 3) / 4⟩)) ∧
     bitfield_field32_read (appCmdHeader ⟨kEntropyDrbgOpGenerate, 0, seed, (len + 3) / 4⟩)
       kAppCmdFieldGlen = (len + 3) / 4 ∧
     bitfield_field32_read (appCmdHeader ⟨kEntropyDrbgOpGenerate, 0, seed, (len + 3) / 4⟩)
       kAppCmdFieldCmdId = kEntropyDrbgOpGenerate) ∧
    bitfield_field32_read (appCmdHeader ⟨kEntropyDrbgOpGenerate, 0, none, (10 + 3) / 4⟩)
      kAppCmdFieldGlen = 3 ∧
    (∀ t m, entropy_csrng_generate_start seed len env n = ⟨.error (), t, m⟩ →
      entropy_csrng_generate seed len env n = ⟨.error (), t, m⟩) := by
  refine ⟨⟨?_, ?_, ?_⟩, by decide, ?_⟩
  · show (csrng_send_app_cmd (kBaseCsrng + CSRNG_CMD_REQ_REG_OFFSET)
      ⟨kEntropyDrbgOpGenerate, 0, seed, (len + 3) / 4⟩ env n).trace.get? 2 = _
    rw [csrng_send_app_cmd_ok_run (kBaseCsrng + CSRNG_CMD_REQ_REG_OFFSET)
      ⟨kEntropyDrbgOpGenerate, 0, seed, (len + 3) / 4⟩ env n
      (lowmask_check_zero_of_le _ hlen) halign]
    rfl
  · rw [appCmdHeader_read_glen, and7ffff_of_lt _ hglen]
  · rw [appCmdHeader_read_id]
    simp only [kEntropyDrbgOpGenerate]
    decide
  · intro t m hfail
    show dseq (entropy_csrng_generate_start seed len) (entropy_csrng_generate_data_get len)
      env n = _
    exact dseq_err _ _ _ _ _ _ hfail

/-- C7 witness: generating 10 words on an oracle whose status bit is always
set submits block count (10+3)/4 = 3, fails at generate_start, and generate
then performs no output read - its trace is exactly the five submit events. -/
theorem c7_generate_block_count_witness :
    cmdLenOf (none : Option entropy_seed_material_t) ≤ 15 ∧
    seedMisaligned (none : Option entropy_seed_material_t) = false ∧
    ((10 : Nat) + 3) / 4 < 2 ^ 19 ∧
    entropy_csrng_generate none 10 envStsErr 0 =
      ⟨.error (),
       [Ev.poll (kBaseCsrng + CSRNG_SW_CMD_STS_REG_OFFSET) CSRNG_SW_CMD_STS_CMD_RDY_BIT,
        Ev.wr (kBaseCsrng + CSRNG_INTR_STATE_REG_OFFSET)
          (bitfield_bit32_write 0 CSRNG_INTR_STATE_CS_CMD_REQ_DONE_BIT true),
        Ev.wr (kBaseCsrng + CSRNG_CMD_REQ_REG_OFFSET)
          (appCmdHeader ⟨kEntropyDrbgOpGenerate, 0, none, (10 + 3) / 4⟩),
        Ev.poll (kBaseCsrng + CSRNG_INTR_STATE_REG_OFFSET) CSRNG_INTR_STATE_CS_CMD_REQ_DONE_BIT,
        Ev.rd (kBaseCsrng + CSRNG_SW_CMD_STS_REG_OFFSET)],
       3⟩ :=
  ⟨by decide, rfl, by decide,
   (c7_generate_block_count 10 none envStsErr 0 (by decide) rfl (by decide)).2.2 _ _ (by rfl)⟩

/-- entropy_src_configure as a result: always success, no read consumed. -/
lemma entropy_src_configure_run_split (cfg : entropy_complex_config_t) (env : HwEnv) (n : Nat) :
    entropy_src_configure cfg env n =
      ⟨.ok (), (entropy_src_configure cfg env n).trace, n⟩ := rfl

/-- C6: every call to init first runs the stop-all sequence; then checks the
retrieved record's self-identifier, returning the internal error with no
configuration performed (no events beyond stop-all) on mismatch; then
configures the noise source, enables the DRBG block, configures distribution
instance 0 and configures distribution instance 1, in that order; the first
failing step aborts the remaining steps and its error is returned; and the
record init actually retrieves is the continuous table entry, whose
self-identifier matches the requested one. -/
theorem c6_init_order :
    (∀ (cfg : entropy_complex_config_t) (env : HwEnv),
      entropy_complex_init_with cfg env 0 =
        (let s := entropy_complex_stop_all env 0
         if launder32 cfg.id ≠ kEntropyComplexConfigIdContinuous then
           ⟨.error (), s.trace, s.next⟩
         else
           let a := entropy_src_configure cfg env s.next
           let c := csrng_configure env a.next
           let e0 := edn_configure cfg.edn0 env c.next
           match e0.res with
           | .error e => ⟨.error e, s.trace ++ (a.trace ++ (c.trace ++ e0.trace)), e0.next⟩
           | .ok _ =>
             let e1 := edn_configure cfg.edn1 env e0.next
             ⟨e1.res, s.trace ++ (a.trace ++ (c.trace ++ (e0.trace ++ e1.trace))),
              e1.next⟩)) ∧
    entropy_complex_init = entropy_complex_init_with kEntropyComplexConfigContinuous ∧
    kEntropyComplexConfigContinuous.id = kEntropyComplexConfigIdContinuous := by
  refine ⟨?_, rfl, rfl⟩
  intro cfg env
  unfold entropy_complex_init_with
  rw [dseq_ok _ _ _ _ _ _ _ (stop_all_run env 0)]
  by_cases hid : launder32 cfg.id ≠ kEntropyComplexConfigIdContinuous
  · rw [if_pos hid, if_pos hid]
    simp [dfail, stop_all_run]
  · rw [if_neg hid, if_neg hid]
    rw [dseq_ok _ _ _ _ _ _ _ (entropy_src_configure_run_split cfg env 2)]
    rw [dseq_ok _ _ _ _ _ _ _ (csrng_configure_run env 2)]
    rcases hE0 : edn_configure cfg.edn0 env 2 with ⟨r0, t0, m0⟩
    cases r0 with
    | error e =>
      cases e
      rw [dseq_err _ _ _ _ _ _ hE0]
      simp [stop_all_run, entropy_src_configure_next, csrng_configure_run, hE0]
    | ok a =>
      cases a
      rw [dseq_ok _ _ _ _ _ _ _ hE0]
      simp [stop_all_run, entropy_src_configure_next, csrng_configure_run, hE0]
